import Mathlib

/-!
Verification of the TGUI widget/backend sample (SpinControl, ComboBox, BackendSDL).

The `BackendSDL` section is a shallow embedding of `BackendSDL.cpp`, which is
present in the sources.  The SpinControl and ComboBox implementation files are
not part of the sources (only their headers are), so the widget operations are
modelled from the specification; each such definition carries a doc comment
starting with `Modelled from the spec:`.

Machine floats (`float` values of the C++ code) are modelled as exact
rationals `ℚ`; host handles (SDL cursor pointers) are modelled as allocation
ids `ℕ` handed out by a counter.
-/

namespace TguiSpec

/- ------------------------------------------------------------------ -/
/- SpinControl (modelled from the spec; implementation not in sources) -/
/- ------------------------------------------------------------------ -/

/-- Modelled from the spec: `clamp(v, min, max)` used by `SpinControl::setValue`
("setValue clamps to [min,max]"); the standard clamp to the interval. -/
def clampF (lo hi v : ℚ) : ℚ := max lo (min hi v)

/-- Modelled from the spec: the state of a `SpinControl` that the spec talks
about (minimum, maximum, current value, step, decimal places, the value shown
in the EditBox text, and the payloads of the fired `onValueChange` signals,
most recent first).  The implementation file `SpinControl.cpp` is not in the
sources. -/
structure SpinControl where
  minimum : ℚ
  maximum : ℚ
  value : ℚ
  step : ℚ
  decimalPlaces : Nat
  textValue : ℚ
  firedValues : List ℚ
deriving DecidableEq

/-- Modelled from the spec: "`setValue` clamps to [min,max], updates the
EditBox text formatted to `decimalPlaces` fixed-point digits, and fires
`onValueChange` only if the clamped value differs from the current value
(returns whether the value was actually applied)". -/
def SpinControl.setValue (s : SpinControl) (v : ℚ) : SpinControl × Bool :=
  let c := clampF s.minimum s.maximum v
  let s' := { s with textValue := c }
  if c = s.value then (s', false)
  else ({ s' with value := c, firedValues := c :: s.firedValues }, true)

/-- Getter for the current value (`SpinControl::getValue`). -/
def SpinControl.getValue (s : SpinControl) : ℚ := s.value

/- ------------------------------------------------------------------ -/
/- ComboBox (modelled from the spec; implementation not in sources)    -/
/- ------------------------------------------------------------------ -/

/-- The side where the combo box list will be displayed
(`ComboBox::ExpandDirection`, declared in `ComboBox.hpp`). -/
inductive ExpandDirection where
  | down
  | up
  | automatic
deriving DecidableEq

/-- Where the expanded list ends up on the screen. -/
inductive ListPlacement where
  | below
  | above
deriving DecidableEq

/-- Modelled from the spec: placement of the expanded list chosen when the
list box is shown ("Down always opens below; Up always opens above;
Automatic picks whichever side fits the available screen space, defaulting to
Down on tie"; "given a screen height H and combo box bottom at y, with list
height L, expands Down if y+L ≤ H else Up").  The implementation file
`ComboBox.cpp` is not in the sources. -/
def listBoxPlacement (dir : ExpandDirection) (screenHeight bottomY listHeight : ℚ) :
    ListPlacement :=
  match dir with
  | .down => .below
  | .up => .above
  | .automatic => if bottomY + listHeight ≤ screenHeight then .below else .above

/-- Modelled from the spec: the ComboBox state the claims are about.  Items
are (displayName, id) pairs ("ordered sequence of (displayName, id) pairs");
`selectedIndex` is -1 or a valid index; `maximumItems = 0` means no limit;
`listBoxVisible` is the Collapsed/Expanded state of the list overlay. -/
structure ComboBox where
  items : List (String × String)
  selectedIndex : Int
  maximumItems : Nat
  changeItemOnScroll : Bool
  listBoxVisible : Bool
  expandDirection : ExpandDirection
deriving DecidableEq

/-- Modelled from the spec and the header contract of `ComboBox::addItem`:
returns the index of the inserted item when no maximum is set or the count is
still below `getMaximumItems()`, and returns `getMaximumItems()` (failing to
insert) when there are too many items. -/
def ComboBox.addItem (cb : ComboBox) (itemName id : String) : ComboBox × Nat :=
  if cb.maximumItems = 0 ∨ cb.items.length < cb.maximumItems then
    ({ cb with items := cb.items ++ [(itemName, id)] }, cb.items.length)
  else
    (cb, cb.maximumItems)

/-- Number of items (`ComboBox::getItemCount`). -/
def ComboBox.getItemCount (cb : ComboBox) : Nat := cb.items.length

/-- Index of the selected item, -1 when none (`ComboBox::getSelectedItemIndex`). -/
def ComboBox.getSelectedItemIndex (cb : ComboBox) : Int := cb.selectedIndex

/-- Modelled from the spec: `ComboBox::removeItemByIndex` removes the item at
a valid index (shifting subsequent items down by one) and returns `true`;
returns `false` when the index was too high.  Removal of the selected item
resets the selection to -1 ("removal of the selected item resets selection
to -1"); removing an earlier item shifts the selection down with the items. -/
def ComboBox.removeItemByIndex (cb : ComboBox) (index : Nat) : ComboBox × Bool :=
  if index < cb.items.length then
    ({ cb with
        items := cb.items.eraseIdx index,
        selectedIndex :=
          if cb.selectedIndex = (index : Int) then -1
          else if (index : Int) < cb.selectedIndex then cb.selectedIndex - 1
          else cb.selectedIndex }, true)
  else
    (cb, false)

/-- Modelled from the spec and the header contract of
`ComboBox::setSelectedItemById`: selects the first item whose id matches and
returns `true`; returns `false` when none of the items has the given id
("setSelectedItemById(id) for a non-existent id leaves getSelectedItemIndex()
unchanged and returns false"). -/
def ComboBox.setSelectedItemById (cb : ComboBox) (id : String) : ComboBox × Bool :=
  match cb.items.findIdx? (fun p => p.2 == id) with
  | some j => ({ cb with selectedIndex := (j : Int) }, true)
  | none => (cb, false)

/-- Modelled from the spec: `ComboBox::mouseWheelScrolled` while the list is
collapsed ("Scroll-while-collapsed, if `changeItemOnScroll` is enabled,
cycles selection by ±1 clamped to [0, itemCount-1] without transitioning to
Expanded"; the scenario fixes the direction: a negative delta moves the
selection one item forward).  With `changeItemOnScroll` disabled, with the
list expanded, or with no items the event leaves the state unchanged. -/
def ComboBox.mouseWheelScrolled (cb : ComboBox) (delta : ℚ) : ComboBox :=
  if cb.changeItemOnScroll = true ∧ cb.listBoxVisible = false ∧ cb.items.length ≠ 0 then
    let dir : Int := if delta < 0 then 1 else -1
    { cb with
        selectedIndex := max 0 (min ((cb.items.length : Int) - 1) (cb.selectedIndex + dir)) }
  else cb

/- ------------------------------------------------------------------ -/
/- BackendSDL (embedded from BackendSDL.cpp in the sources)            -/
/- ------------------------------------------------------------------ -/

/-- `Cursor::Type`: the cursor shapes handled by the switch in
`BackendSDL::createSystemCursor`. -/
inductive CursorType where
  | arrow
  | text
  | hand
  | sizeLeft
  | sizeRight
  | sizeTop
  | sizeBottom
  | sizeBottomRight
  | sizeTopLeft
  | sizeBottomLeft
  | sizeTopRight
  | crosshair
  | help
  | notAllowed
deriving DecidableEq

/-- All cursor types, used to model iterating over `m_mouseCursors`. -/
def allCursorTypes : List CursorType :=
  [.arrow, .text, .hand, .sizeLeft, .sizeRight, .sizeTop, .sizeBottom,
   .sizeBottomRight, .sizeTopLeft, .sizeBottomLeft, .sizeTopRight,
   .crosshair, .help, .notAllowed]

/-- Per-gui data kept in `m_guis` (`GuiResources`): whether a window was set
with `setGuiWindow`, and the cursor type last requested for this gui.  The
declaring header is not in the sources; the default cursor type of a freshly
attached gui is the arrow. -/
structure GuiData where
  window : Bool
  mouseCursor : CursorType
deriving DecidableEq

/-- A freshly attached gui (`m_guis[gui] = {}`). -/
def GuiData.init : GuiData := { window := false, mouseCursor := .arrow }

/-- The state of a `BackendSDL` instance, embedding the generic build of
`BackendSDL.cpp` (no `TGUI_SYSTEM_WINDOWS` / `TGUI_SYSTEM_LINUX` /
`TGUI_SYSTEM_ANDROID` preprocessor branches).  Host cursor handles returned
by SDL are modelled as allocation ids handed out by `nextId`; `freed` lists
the ids passed to `SDL_FreeCursor`, most recent first; `shown` is the handle
last passed to `SDL_SetCursor`; `alive` is false once the instance was torn
down by `setBackend(nullptr)`.  `destroyOnLastGuiDetatch` is the
`m_destroyOnLastGuiDetatch` flag tested by `detatchGui`; its initializer is
not in the sources and is modelled from the spec ("detaching the last
attached root triggers backend teardown") as true in `initBackend`. -/
structure BackendState where
  guis : List (Nat × GuiData)
  destroyOnLastGuiDetatch : Bool
  alive : Bool
  cursors : CursorType → Option Nat
  nextId : Nat
  freed : List Nat
  shown : Option Nat

/-- The state of a freshly created backend: no guis, empty cursor cache. -/
def initBackend : BackendState :=
  { guis := []
    destroyOnLastGuiDetatch := true
    alive := true
    cursors := fun _ => none
    nextId := 0
    freed := []
    shown := none }

/-- Lookup of a gui in `m_guis` by its handle. -/
def lookupGui (gs : List (Nat × GuiData)) (g : Nat) : Option GuiData :=
  match gs with
  | [] => none
  | p :: rest => if p.1 = g then some p.2 else lookupGui rest g

/-- Update the entry of a gui in `m_guis`. -/
def updateGui (gs : List (Nat × GuiData)) (g : Nat) (f : GuiData → GuiData) :
    List (Nat × GuiData) :=
  gs.map (fun p => if p.1 = g then (p.1, f p.2) else p)

/-- `BackendSDL::attachGui`: `m_guis[gui] = {};` inserts or resets the entry. -/
def attachGui (s : BackendState) (g : Nat) : BackendState :=
  if (lookupGui s.guis g).isSome then
    { s with guis := updateGui s.guis g (fun _ => GuiData.init) }
  else
    { s with guis := s.guis ++ [(g, GuiData.init)] }

/-- `BackendSDL::setGuiWindow`: gives the (attached) gui access to a window. -/
def setGuiWindow (s : BackendState) (g : Nat) : BackendState :=
  { s with guis := updateGui s.guis g (fun d => { d with window := true }) }

/-- The live handles of the cursor cache, in the order of `allCursorTypes`
(models iterating over the `m_mouseCursors` map). -/
def liveHandles (s : BackendState) : List Nat :=
  allCursorTypes.filterMap s.cursors

/-- `BackendSDL::~BackendSDL` (run when `setBackend(nullptr)` drops the last
reference): every non-null cached cursor handle is passed to
`SDL_FreeCursor`. -/
def destroyBackend (s : BackendState) : BackendState :=
  { s with
      freed := liveHandles s ++ s.freed
      cursors := fun _ => none
      alive := false }

/-- `BackendSDL::detatchGui`: erases the gui from `m_guis` and, when
`m_destroyOnLastGuiDetatch` is set and no gui remains, calls
`setBackend(nullptr)`, destroying the backend instance. -/
def detatchGui (s : BackendState) (g : Nat) : BackendState :=
  let s' := { s with guis := s.guis.filter (fun p => p.1 != g) }
  if s'.destroyOnLastGuiDetatch = true ∧ s'.guis = [] then destroyBackend s' else s'

/-- `BackendSDL::updateShownMouseCursor` (generic build): if the cache has no
cursor for the type yet, `createSystemCursor` is attempted (`createOk` models
whether the host call succeeds); on failure the function returns without
touching any state; otherwise the cached handle is passed to
`SDL_SetCursor`. -/
def updateShownMouseCursor (s : BackendState) (t : CursorType) (createOk : Bool) :
    BackendState :=
  match s.cursors t with
  | some h => { s with shown := some h }
  | none =>
    if createOk then
      { s with
          cursors := Function.update s.cursors t (some s.nextId)
          nextId := s.nextId + 1
          shown := some s.nextId }
    else s

/-- The first half of `BackendSDL::updateMouseCursorStyle`: frees the
previously cached handle for the type (if any) and stores the new cursor
(`fresh = true` models the caller passing a newly created host cursor, which
is given the next allocation id; `fresh = false` models a null pointer). -/
def replaceCursorEntry (s : BackendState) (t : CursorType) (fresh : Bool) : BackendState :=
  let c : Option Nat := if fresh then some s.nextId else none
  let n : Nat := if fresh then s.nextId + 1 else s.nextId
  match s.cursors t with
  | some old =>
      { s with freed := old :: s.freed, cursors := Function.update s.cursors t c, nextId := n }
  | none =>
      { s with cursors := Function.update s.cursors t c, nextId := n }

/-- `BackendSDL::updateMouseCursorStyle`: replaces the cached cursor for the
type via `replaceCursorEntry`, then calls `updateShownMouseCursor` for every
attached gui that uses this cursor type and has a window. -/
def updateMouseCursorStyle (s : BackendState) (t : CursorType) (fresh showOk : Bool) :
    BackendState :=
  let s₁ := replaceCursorEntry s t fresh
  s₁.guis.foldl
    (fun acc p =>
      if p.2.mouseCursor = t ∧ p.2.window = true then updateShownMouseCursor acc t showOk
      else acc)
    s₁

/-- `BackendSDL::setMouseCursorStyle`: creates a surface from the pixels and
a color cursor from the surface (`surfaceOk` and `cursorOk` model the two
host calls); on either failure it returns without changing any state;
on success it registers the new cursor via `updateMouseCursorStyle`. -/
def setMouseCursorStyle (s : BackendState) (t : CursorType)
    (surfaceOk cursorOk showOk : Bool) : BackendState :=
  if surfaceOk = true then
    if cursorOk = true then updateMouseCursorStyle s t true showOk
    else s
  else s

/-- `BackendSDL::resetMouseCursorStyle` (generic build): registers a freshly
created system cursor for the type (`ok` models whether
`SDL_CreateSystemCursor` succeeds, a null pointer being stored otherwise). -/
def resetMouseCursorStyle (s : BackendState) (t : CursorType) (ok showOk : Bool) :
    BackendState :=
  updateMouseCursorStyle s t ok showOk

/-- `BackendSDL::setMouseCursor`: returns immediately when the requested type
equals the gui's stored type; otherwise stores the type and, when the gui has
a window, updates the shown cursor in the same call.  The `TGUI_ASSERT` for
an unattached gui is modelled as leaving the state unchanged; that branch is
never exercised by the theorems below, which require the gui to be
attached. -/
def setMouseCursor (s : BackendState) (g : Nat) (t : CursorType) (createOk : Bool) :
    BackendState :=
  match lookupGui s.guis g with
  | none => s
  | some data =>
    if data.mouseCursor = t then s
    else
      let s' := { s with guis := updateGui s.guis g (fun d => { d with mouseCursor := t }) }
      if data.window = true then updateShownMouseCursor s' t createOk else s'

/-- `BackendSDL::getClipboard`: `SDL_GetClipboardText` may yield no text
(modelled as `none`), in which case the empty string is returned. -/
def getClipboard (hostText : Option String) : String :=
  match hostText with
  | some txt => txt
  | none => ""

/-- SDL modifier masks: `KMOD_LSHIFT|KMOD_RSHIFT`. -/
def kmodShift : Nat := 0x0003
/-- SDL modifier masks: `KMOD_LCTRL|KMOD_RCTRL`. -/
def kmodCtrl : Nat := 0x00C0
/-- SDL modifier masks: `KMOD_LALT|KMOD_RALT`. -/
def kmodAlt : Nat := 0x0300
/-- SDL modifier masks: `KMOD_LGUI|KMOD_RGUI`. -/
def kmodGui : Nat := 0x0C00

/-- `BackendSDL::isKeyboardModifierPressed`: switches over the
`Event::KeyModifier` value (whose declaring header is not in the sources; the
enum is represented here by its underlying integer code, `System = 0`,
`Control = 1`, `Shift = 2`, `Alt = 3` in the order of the switch) and tests
the corresponding bits of `SDL_GetModState()` (passed as
`pressedModifiers`).  Any other code falls through the switch to the
debug-only assertion and returns false. -/
def isKeyboardModifierPressed (pressedModifiers : Nat) (modifierKey : Nat) : Bool :=
  match modifierKey with
  | 0 => pressedModifiers &&& kmodGui != 0
  | 1 => pressedModifiers &&& kmodCtrl != 0
  | 2 => pressedModifiers &&& kmodShift != 0
  | 3 => pressedModifiers &&& kmodAlt != 0
  | _ => false

/-- The cursor-cache operations of the backend, as invoked by the host and
the widget layer; the Bool parameters model the success of the corresponding
host calls. -/
inductive HostOp where
  | setStyle (t : CursorType) (surfaceOk cursorOk showOk : Bool)
  | resetStyle (t : CursorType) (ok showOk : Bool)
  | showCursor (t : CursorType) (createOk : Bool)
  | setCursor (g : Nat) (t : CursorType) (createOk : Bool)
  | attach (g : Nat)
  | setWindow (g : Nat)
  | detatch (g : Nat)

/-- One backend operation. -/
def stepOp (s : BackendState) (op : HostOp) : BackendState :=
  match op with
  | .setStyle t surfaceOk cursorOk showOk => setMouseCursorStyle s t surfaceOk cursorOk showOk
  | .resetStyle t ok showOk => resetMouseCursorStyle s t ok showOk
  | .showCursor t createOk => updateShownMouseCursor s t createOk
  | .setCursor g t createOk => setMouseCursor s g t createOk
  | .attach g => attachGui s g
  | .setWindow g => setGuiWindow s g
  | .detatch g => detatchGui s g

/-- Run a sequence of backend operations. -/
def runOps (s : BackendState) (ops : List HostOp) : BackendState :=
  ops.foldl stepOp s

/-- The cursor-registry invariant over the registry components (`cur` the
cache, `n` the allocation counter, `fr` the freed list): live handles are
allocated, pairwise distinct, and disjoint from the freed list; the freed
list has no duplicates and contains only allocated handles; every allocated
handle is either live or freed (nothing leaks). -/
structure RegistryInv (cur : CursorType → Option Nat) (n : Nat) (fr : List Nat) : Prop where
  live_lt : ∀ t k, cur t = some k → k < n
  live_inj : ∀ t u k, cur t = some k → cur u = some k → t = u
  freed_nodup : fr.Nodup
  freed_lt : ∀ k ∈ fr, k < n
  live_not_freed : ∀ t k, cur t = some k → k ∉ fr
  complete : ∀ k, k < n → (∃ t, cur t = some k) ∨ k ∈ fr

/-- The cursor-registry invariant of a backend state. -/
abbrev CursorInv (s : BackendState) : Prop :=
  RegistryInv s.cursors s.nextId s.freed

/- ------------------------------------------------------------------ -/
/- Theorems                                                            -/
/- ------------------------------------------------------------------ -/

/-- Claim C1: for every SpinControl and every value v, after `setValue v` the
current value equals `clamp(v, min, max)`, and `setValue` returns true iff
the clamped value differs from the value held before the call. -/
theorem spinControl_setValue_clamps (s : SpinControl) (v : ℚ) :
    ((s.setValue v).1).getValue = clampF s.minimum s.maximum v
  ∧ ((s.setValue v).2 = true ↔ clampF s.minimum s.maximum v ≠ s.value) := by
  by_cases h : clampF s.minimum s.maximum v = s.value <;>
    simp [SpinControl.setValue, SpinControl.getValue, h]

/-- Witness for C1, the scenario from the spec: on a SpinControl over [0,10]
holding 3, `setValue 15` clamps to 10 and reports a change. -/
theorem spinControl_setValue_clamps_witness :
    ((⟨0, 10, 3, 1, 0, 3, []⟩ : SpinControl).setValue 15).1.getValue = 10
  ∧ ((⟨0, 10, 3, 1, 0, 3, []⟩ : SpinControl).setValue 15).2 = true := by
  have h := spinControl_setValue_clamps (⟨0, 10, 3, 1, 0, 3, []⟩ : SpinControl) 15
  constructor
  · rw [h.1]
    decide
  · rw [h.2]
    decide

/-- Claim C2: with expand direction Automatic, the list is shown below the
box exactly when the bottom of the list would stay on the screen
(y + L ≤ H), and above it otherwise; in particular a tie (y + L = H) opens
it below. -/
theorem comboBox_automaticExpandDirection (screenH bottomY listH : ℚ) :
    (listBoxPlacement .automatic screenH bottomY listH = .below ↔
        bottomY + listH ≤ screenH)
  ∧ (bottomY + listH = screenH →
        listBoxPlacement .automatic screenH bottomY listH = .below) := by
  constructor
  · by_cases h : bottomY + listH ≤ screenH <;> simp [listBoxPlacement, h]
  · intro he
    simp [listBoxPlacement, he]

/-- Witness for C2: a list of height 6 under a box with bottom at 4 on a
screen of height 10 is exactly the tie case and opens below. -/
theorem comboBox_automaticExpandDirection_witness :
    listBoxPlacement .automatic 10 4 6 = .below :=
  (comboBox_automaticExpandDirection 10 4 6).2 (by norm_num)

/-- Claim C3: a mouse-wheel scroll on a collapsed combo box with
`changeItemOnScroll` enabled and a nonempty item list moves the selection by
±1 (negative delta moves forward), clamped to [0, itemCount-1], without
expanding the list or touching the items. -/
theorem comboBox_scrollWhileCollapsed (cb : ComboBox) (delta : ℚ)
    (hwheel : cb.changeItemOnScroll = true)
    (hcollapsed : cb.listBoxVisible = false)
    (hitems : cb.items.length ≠ 0) :
    (cb.mouseWheelScrolled delta).selectedIndex
      = max 0 (min ((cb.items.length : Int) - 1)
          (cb.selectedIndex + (if delta < 0 then 1 else -1)))
  ∧ (cb.mouseWheelScrolled delta).listBoxVisible = false
  ∧ (cb.mouseWheelScrolled delta).items = cb.items := by
  unfold ComboBox.mouseWheelScrolled
  rw [if_pos ⟨hwheel, hcollapsed, hitems⟩]
  exact ⟨rfl, hcollapsed, rfl⟩

/-- Witness for C3, the scenario from the spec: items A, B, C with index 0
selected; one scroll with negative delta selects index 1. -/
theorem comboBox_scrollWhileCollapsed_witness :
    ((⟨[("A", ""), ("B", ""), ("C", "")], 0, 0, true, false, .automatic⟩ :
        ComboBox).mouseWheelScrolled (-1)).selectedIndex = 1 := by
  have h := comboBox_scrollWhileCollapsed
    (⟨[("A", ""), ("B", ""), ("C", "")], 0, 0, true, false, .automatic⟩ : ComboBox)
    (-1) rfl rfl (by decide)
  rw [h.1]
  decide

/-- Claim C4: below the maximum-items limit, `addItem` grows the item count
by exactly one; for a valid index i, `removeItemByIndex i` shrinks the count
by one and every item after position i moves down one index. -/
theorem comboBox_addItem_removeItem (cb : ComboBox) (nm idStr : String) (i : Nat)
    (hroom : cb.maximumItems = 0 ∨ cb.items.length < cb.maximumItems)
    (hi : i < cb.items.length) :
    ((cb.addItem nm idStr).1.getItemCount = cb.getItemCount + 1)
  ∧ ((cb.removeItemByIndex i).1.getItemCount = cb.getItemCount - 1)
  ∧ (∀ j, i < j → j < cb.items.length →
      (cb.removeItemByIndex i).1.items[j - 1]? = cb.items[j]?) := by
  refine ⟨?_, ?_, ?_⟩
  · unfold ComboBox.addItem
    rw [if_pos hroom]
    simp [ComboBox.getItemCount]
  · unfold ComboBox.removeItemByIndex ComboBox.getItemCount
    rw [if_pos hi]
    exact List.length_eraseIdx_of_lt hi
  · intro j hij hj
    unfold ComboBox.removeItemByIndex
    rw [if_pos hi]
    have h1 : i ≤ j - 1 := by omega
    rw [List.getElem?_eraseIdx_of_ge _ _ _ h1]
    have h2 : j - 1 + 1 = j := by omega
    rw [h2]

/-- Witness for C4: on items A, B, C, adding makes four items, removing
index 1 leaves two, and the item C that was at index 2 is found at index 1. -/
theorem comboBox_addItem_removeItem_witness :
    (((⟨[("A", "a"), ("B", "b"), ("C", "c")], -1, 0, false, false, .down⟩ :
        ComboBox).addItem "D" "").1.getItemCount = 4)
  ∧ (((⟨[("A", "a"), ("B", "b"), ("C", "c")], -1, 0, false, false, .down⟩ :
        ComboBox).removeItemByIndex 1).1.items[1]? = some ("C", "c")) := by
  have h := comboBox_addItem_removeItem
    (⟨[("A", "a"), ("B", "b"), ("C", "c")], -1, 0, false, false, .down⟩ : ComboBox)
    "D" "" 1 (Or.inl rfl) (by decide)
  refine ⟨h.1, ?_⟩
  have h2 := h.2.2 2 (by decide) (by decide)
  exact h2.trans (by decide)

/-- Claim C5: selecting by an id that matches no item returns false and
leaves the combo box (in particular the selected index) unchanged; the
operation is a total function, the failure shows up only in the returned
boolean. -/
theorem comboBox_setSelectedItemById_missing (cb : ComboBox) (idStr : String)
    (hmiss : ∀ p ∈ cb.items, p.2 ≠ idStr) :
    (cb.setSelectedItemById idStr).2 = false
  ∧ (cb.setSelectedItemById idStr).1.getSelectedItemIndex = cb.getSelectedItemIndex
  ∧ (cb.setSelectedItemById idStr).1 = cb := by
  have hnone : cb.items.findIdx? (fun p => p.2 == idStr) = none := by
    rw [List.findIdx?_eq_none_iff]
    intro p hp
    simp only [beq_eq_false_iff_ne]
    exact hmiss p hp
  unfold ComboBox.setSelectedItemById
  rw [hnone]
  exact ⟨rfl, rfl, rfl⟩

/-- Witness for C5: the id "zz" matches neither item, so the selection at
index 1 is untouched and false is returned. -/
theorem comboBox_setSelectedItemById_missing_witness :
    ((⟨[("A", "a"), ("B", "b")], 1, 0, false, false, .down⟩ :
        ComboBox).setSelectedItemById "zz").2 = false
  ∧ ((⟨[("A", "a"), ("B", "b")], 1, 0, false, false, .down⟩ :
        ComboBox).setSelectedItemById "zz").1
      = (⟨[("A", "a"), ("B", "b")], 1, 0, false, false, .down⟩ : ComboBox) := by
  have h := comboBox_setSelectedItemById_missing
    (⟨[("A", "a"), ("B", "b")], 1, 0, false, false, .down⟩ : ComboBox) "zz" (by decide)
  exact ⟨h.1, h.2.2⟩

/-- Claim C6: in the configuration the spec describes, in which
`m_destroyOnLastGuiDetatch` is set (its initializer is not in the sources;
`initBackend` models it as true), detaching the last attached gui root tears
the backend down, while detaching when other roots remain attached leaves it
alive. -/
theorem backendSDL_detatchGui_teardown (s : BackendState) (g : Nat)
    (hflag : s.destroyOnLastGuiDetatch = true) (halive : s.alive = true) :
    (s.guis.filter (fun p => p.1 != g) = [] → (detatchGui s g).alive = false)
  ∧ (s.guis.filter (fun p => p.1 != g) ≠ [] → (detatchGui s g).alive = true) := by
  unfold detatchGui
  constructor
  · intro hemp
    rw [if_pos ⟨hflag, hemp⟩]
    rfl
  · intro hne
    rw [if_neg]
    · exact halive
    · rintro ⟨-, h2⟩
      exact hne h2

/-- Witness for C6: a backend with a single attached root is torn down by
detaching it. -/
theorem backendSDL_detatchGui_teardown_witness :
    (detatchGui
      { guis := [(0, GuiData.init)], destroyOnLastGuiDetatch := true, alive := true,
        cursors := fun _ => none, nextId := 0, freed := [], shown := none } 0).alive
      = false := by
  have h := backendSDL_detatchGui_teardown
    { guis := [(0, GuiData.init)], destroyOnLastGuiDetatch := true, alive := true,
      cursors := fun _ => none, nextId := 0, freed := [], shown := none } 0 rfl rfl
  exact h.1 rfl

/-- `updateShownMouseCursor` never touches the gui map. -/
theorem updateShown_guis (s : BackendState) (t : CursorType) (ok : Bool) :
    (updateShownMouseCursor s t ok).guis = s.guis := by
  unfold updateShownMouseCursor
  split
  · rfl
  · split <;> rfl

/-- Looking up a gui after updating it yields the updated data. -/
theorem lookupGui_updateGui (gs : List (Nat × GuiData)) (g : Nat) (f : GuiData → GuiData) :
    lookupGui (updateGui gs g f) g = (lookupGui gs g).map f := by
  induction gs with
  | nil => rfl
  | cons p rest ih =>
    by_cases hp : p.1 = g
    · simp [updateGui, lookupGui, hp]
    · simp only [updateGui, List.map_cons, if_neg hp]
      simp only [lookupGui, if_neg hp]
      exact ih

/-- `updateShownMouseCursor` when the cache already holds a cursor for the
type: only the shown cursor changes. -/
theorem updateShown_eq_some (s : BackendState) (t : CursorType) (k : Nat) (ok : Bool)
    (hc : s.cursors t = some k) :
    updateShownMouseCursor s t ok = { s with shown := some k } := by
  unfold updateShownMouseCursor
  rw [hc]

/-- `updateShownMouseCursor` on a cache miss with a failing host call: the
state is unchanged. -/
theorem updateShown_eq_skip (s : BackendState) (t : CursorType)
    (hc : s.cursors t = none) :
    updateShownMouseCursor s t false = s := by
  unfold updateShownMouseCursor
  rw [hc]
  rfl

/-- `updateShownMouseCursor` on a cache miss with a succeeding host call:
a fresh handle is created, cached, and shown. -/
theorem updateShown_eq_create (s : BackendState) (t : CursorType)
    (hc : s.cursors t = none) :
    updateShownMouseCursor s t true =
      { s with
          cursors := Function.update s.cursors t (some s.nextId)
          nextId := s.nextId + 1
          shown := some s.nextId } := by
  unfold updateShownMouseCursor
  rw [hc]
  rfl

/-- Lazily creating a fresh handle for a type with no cached cursor
preserves the registry invariant. -/
theorem registryInv_allocate {cur : CursorType → Option Nat} {n : Nat} {fr : List Nat}
    (t : CursorType) (hc : cur t = none) (h : RegistryInv cur n fr) :
    RegistryInv (Function.update cur t (some n)) (n + 1) fr := by
  refine ⟨?_, ?_, h.freed_nodup, ?_, ?_, ?_⟩
  · intro u k hk
    by_cases hu : u = t
    · subst hu
      rw [Function.update_same] at hk
      cases hk
      omega
    · rw [Function.update_noteq hu] at hk
      exact Nat.lt_succ_of_lt (h.live_lt u k hk)
  · intro u u' k hk hk'
    by_cases hu : u = t <;> by_cases hu' : u' = t
    · rw [hu, hu']
    · subst hu
      rw [Function.update_same] at hk
      rw [Function.update_noteq hu'] at hk'
      cases hk
      exact absurd (h.live_lt u' _ hk') (lt_irrefl _)
    · subst hu'
      rw [Function.update_same] at hk'
      rw [Function.update_noteq hu] at hk
      cases hk'
      exact absurd (h.live_lt u _ hk) (lt_irrefl _)
    · rw [Function.update_noteq hu] at hk
      rw [Function.update_noteq hu'] at hk'
      exact h.live_inj u u' k hk hk'
  · intro k hk
    exact Nat.lt_succ_of_lt (h.freed_lt k hk)
  · intro u k hk hmem
    by_cases hu : u = t
    · subst hu
      rw [Function.update_same] at hk
      cases hk
      exact absurd (h.freed_lt _ hmem) (lt_irrefl _)
    · rw [Function.update_noteq hu] at hk
      exact h.live_not_freed u k hk hmem
  · intro k hk
    by_cases hke : k = n
    · subst hke
      exact Or.inl ⟨t, Function.update_same t _ cur⟩
    · have hklt : k < n := by omega
      rcases h.complete k hklt with ⟨u, hu⟩ | hf
      · have hu_ne : u ≠ t := by
          intro he
          rw [he, hc] at hu
          cases hu
        exact Or.inl ⟨u, by rw [Function.update_noteq hu_ne]; exact hu⟩
      · exact Or.inr hf

/-- Freeing the cached handle of a type and caching a freshly created one
in its place preserves the registry invariant. -/
theorem registryInv_free_alloc {cur : CursorType → Option Nat} {n : Nat} {fr : List Nat}
    (t : CursorType) (old : Nat) (hc : cur t = some old) (h : RegistryInv cur n fr) :
    RegistryInv (Function.update cur t (some n)) (n + 1) (old :: fr) := by
  have hold_lt : old < n := h.live_lt t old hc
  have hold_nf : old ∉ fr := h.live_not_freed t old hc
  refine ⟨?_, ?_, List.nodup_cons.mpr ⟨hold_nf, h.freed_nodup⟩, ?_, ?_, ?_⟩
  · intro u k hk
    by_cases hu : u = t
    · subst hu
      rw [Function.update_same] at hk
      cases hk
      omega
    · rw [Function.update_noteq hu] at hk
      exact Nat.lt_succ_of_lt (h.live_lt u k hk)
  · intro u u' k hk hk'
    by_cases hu : u = t <;> by_cases hu' : u' = t
    · rw [hu, hu']
    · subst hu
      rw [Function.update_same] at hk
      rw [Function.update_noteq hu'] at hk'
      cases hk
      exact absurd (h.live_lt u' _ hk') (lt_irrefl _)
    · subst hu'
      rw [Function.update_same] at hk'
      rw [Function.update_noteq hu] at hk
      cases hk'
      exact absurd (h.live_lt u _ hk) (lt_irrefl _)
    · rw [Function.update_noteq hu] at hk
      rw [Function.update_noteq hu'] at hk'
      exact h.live_inj u u' k hk hk'
  · intro k hk
    rcases List.mem_cons.mp hk with rfl | hk
    · omega
    · exact Nat.lt_succ_of_lt (h.freed_lt k hk)
  · intro u k hk hmem
    by_cases hu : u = t
    · subst hu
      rw [Function.update_same] at hk
      cases hk
      rcases List.mem_cons.mp hmem with heq | hmem
      · omega
      · exact absurd (h.freed_lt _ hmem) (lt_irrefl _)
    · rw [Function.update_noteq hu] at hk
      rcases List.mem_cons.mp hmem with rfl | hmem
      · exact hu (h.live_inj u t k hk hc)
      · exact h.live_not_freed u k hk hmem
  · intro k hk
    by_cases hke : k = n
    · subst hke
      exact Or.inl ⟨t, Function.update_same t _ cur⟩
    · have hklt : k < n := by omega
      rcases h.complete k hklt with ⟨u, hu⟩ | hf
      · by_cases hu_t : u = t
        · subst hu_t
          rw [hc] at hu
          cases hu
          exact Or.inr (List.mem_cons_self _ _)
        · exact Or.inl ⟨u, by rw [Function.update_noteq hu_t]; exact hu⟩
      · exact Or.inr (List.mem_cons_of_mem _ hf)

/-- Freeing the cached handle of a type and storing a null pointer in its
place preserves the registry invariant. -/
theorem registryInv_free_none {cur : CursorType → Option Nat} {n : Nat} {fr : List Nat}
    (t : CursorType) (old : Nat) (hc : cur t = some old) (h : RegistryInv cur n fr) :
    RegistryInv (Function.update cur t none) n (old :: fr) := by
  have hold_lt : old < n := h.live_lt t old hc
  have hold_nf : old ∉ fr := h.live_not_freed t old hc
  refine ⟨?_, ?_, List.nodup_cons.mpr ⟨hold_nf, h.freed_nodup⟩, ?_, ?_, ?_⟩
  · intro u k hk
    by_cases hu : u = t
    · subst hu
      rw [Function.update_same] at hk
      cases hk
    · rw [Function.update_noteq hu] at hk
      exact h.live_lt u k hk
  · intro u u' k hk hk'
    by_cases hu : u = t <;> by_cases hu' : u' = t
    · rw [hu, hu']
    · subst hu
      rw [Function.update_same] at hk
      cases hk
    · subst hu'
      rw [Function.update_same] at hk'
      cases hk'
    · rw [Function.update_noteq hu] at hk
      rw [Function.update_noteq hu'] at hk'
      exact h.live_inj u u' k hk hk'
  · intro k hk
    rcases List.mem_cons.mp hk with rfl | hk
    · exact hold_lt
    · exact h.freed_lt k hk
  · intro u k hk hmem
    by_cases hu : u = t
    · subst hu
      rw [Function.update_same] at hk
      cases hk
    · rw [Function.update_noteq hu] at hk
      rcases List.mem_cons.mp hmem with rfl | hmem
      · exact hu (h.live_inj u t k hk hc)
      · exact h.live_not_freed u k hk hmem
  · intro k hk
    rcases h.complete k hk with ⟨u, hu⟩ | hf
    · by_cases hu_t : u = t
      · subst hu_t
        rw [hc] at hu
        cases hu
        exact Or.inr (List.mem_cons_self _ _)
      · exact Or.inl ⟨u, by rw [Function.update_noteq hu_t]; exact hu⟩
    · exact Or.inr (List.mem_cons_of_mem _ hf)

/-- Storing a null pointer for a type with no cached cursor preserves the
registry invariant. -/
theorem registryInv_clear_none {cur : CursorType → Option Nat} {n : Nat} {fr : List Nat}
    (t : CursorType) (hc : cur t = none) (h : RegistryInv cur n fr) :
    RegistryInv (Function.update cur t none) n fr := by
  refine ⟨?_, ?_, h.freed_nodup, h.freed_lt, ?_, ?_⟩
  · intro u k hk
    by_cases hu : u = t
    · subst hu
      rw [Function.update_same] at hk
      cases hk
    · rw [Function.update_noteq hu] at hk
      exact h.live_lt u k hk
  · intro u u' k hk hk'
    by_cases hu : u = t <;> by_cases hu' : u' = t
    · rw [hu, hu']
    · subst hu
      rw [Function.update_same] at hk
      cases hk
    · subst hu'
      rw [Function.update_same] at hk'
      cases hk'
    · rw [Function.update_noteq hu] at hk
      rw [Function.update_noteq hu'] at hk'
      exact h.live_inj u u' k hk hk'
  · intro u k hk hmem
    by_cases hu : u = t
    · subst hu
      rw [Function.update_same] at hk
      cases hk
    · rw [Function.update_noteq hu] at hk
      exact h.live_not_freed u k hk hmem
  · intro k hk
    rcases h.complete k hk with ⟨u, hu⟩ | hf
    · have hu_ne : u ≠ t := by
        intro he
        rw [he, hc] at hu
        cases hu
      exact Or.inl ⟨u, by rw [Function.update_noteq hu_ne]; exact hu⟩
    · exact Or.inr hf

/-- `updateShownMouseCursor` preserves the cursor-registry invariant. -/
theorem cursorInv_updateShown (s : BackendState) (t : CursorType) (ok : Bool)
    (h : CursorInv s) : CursorInv (updateShownMouseCursor s t ok) := by
  cases ok with
  | false =>
    cases hc : s.cursors t with
    | some k =>
      rw [updateShown_eq_some s t k false hc]
      exact h
    | none =>
      rw [updateShown_eq_skip s t hc]
      exact h
  | true =>
    cases hc : s.cursors t with
    | some k =>
      rw [updateShown_eq_some s t k true hc]
      exact h
    | none =>
      rw [updateShown_eq_create s t hc]
      exact registryInv_allocate t hc h

/-- The per-gui show loop of `updateMouseCursorStyle` preserves the
cursor-registry invariant. -/
theorem cursorInv_foldlShown (t : CursorType) (ok : Bool) :
    ∀ (l : List (Nat × GuiData)) (s : BackendState), CursorInv s →
      CursorInv (l.foldl
        (fun acc p =>
          if p.2.mouseCursor = t ∧ p.2.window = true then updateShownMouseCursor acc t ok
          else acc) s)
  | [], _, h => h
  | p :: rest, s, h => by
    rw [List.foldl_cons]
    apply cursorInv_foldlShown t ok rest
    by_cases hp : p.2.mouseCursor = t ∧ p.2.window = true
    · rw [if_pos hp]
      exact cursorInv_updateShown s t ok h
    · rw [if_neg hp]
      exact h

/-- `replaceCursorEntry` with a cached handle and a fresh cursor: the old
handle is freed and the fresh one cached. -/
theorem replaceEntry_some_true (s : BackendState) (t : CursorType) (old : Nat)
    (hc : s.cursors t = some old) :
    replaceCursorEntry s t true =
      { s with
          freed := old :: s.freed
          cursors := Function.update s.cursors t (some s.nextId)
          nextId := s.nextId + 1 } := by
  unfold replaceCursorEntry
  rw [hc]
  rfl

/-- `replaceCursorEntry` with a cached handle and a null cursor: the old
handle is freed and the entry cleared. -/
theorem replaceEntry_some_false (s : BackendState) (t : CursorType) (old : Nat)
    (hc : s.cursors t = some old) :
    replaceCursorEntry s t false =
      { s with
          freed := old :: s.freed
          cursors := Function.update s.cursors t none } := by
  unfold replaceCursorEntry
  rw [hc]
  rfl

/-- `replaceCursorEntry` on a cache miss with a fresh cursor: the fresh
handle is cached, nothing is freed. -/
theorem replaceEntry_none_true (s : BackendState) (t : CursorType)
    (hc : s.cursors t = none) :
    replaceCursorEntry s t true =
      { s with
          cursors := Function.update s.cursors t (some s.nextId)
          nextId := s.nextId + 1 } := by
  unfold replaceCursorEntry
  rw [hc]
  rfl

/-- `replaceCursorEntry` on a cache miss with a null cursor: the entry is
cleared, nothing is freed. -/
theorem replaceEntry_none_false (s : BackendState) (t : CursorType)
    (hc : s.cursors t = none) :
    replaceCursorEntry s t false =
      { s with cursors := Function.update s.cursors t none } := by
  unfold replaceCursorEntry
  rw [hc]
  rfl

/-- Replacing a cache entry (free the old handle, store the new cursor)
preserves the cursor-registry invariant. -/
theorem cursorInv_replaceCursorEntry (s : BackendState) (t : CursorType) (fresh : Bool)
    (h : CursorInv s) : CursorInv (replaceCursorEntry s t fresh) := by
  cases fresh with
  | true =>
    cases hc : s.cursors t with
    | some old =>
      rw [replaceEntry_some_true s t old hc]
      exact registryInv_free_alloc t old hc h
    | none =>
      rw [replaceEntry_none_true s t hc]
      exact registryInv_allocate t hc h
  | false =>
    cases hc : s.cursors t with
    | some old =>
      rw [replaceEntry_some_false s t old hc]
      exact registryInv_free_none t old hc h
    | none =>
      rw [replaceEntry_none_false s t hc]
      exact registryInv_clear_none t hc h

/-- `updateMouseCursorStyle` preserves the cursor-registry invariant. -/
theorem cursorInv_updateStyle (s : BackendState) (t : CursorType) (fresh showOk : Bool)
    (h : CursorInv s) : CursorInv (updateMouseCursorStyle s t fresh showOk) :=
  cursorInv_foldlShown t showOk _ _ (cursorInv_replaceCursorEntry s t fresh h)

/-- Every cursor type is in the enumeration. -/
theorem mem_allCursorTypes (t : CursorType) : t ∈ allCursorTypes := by
  cases t <;> simp [allCursorTypes]

/-- The live handles of the cache are pairwise distinct. -/
theorem liveHandles_nodup {s : BackendState} (h : CursorInv s) : (liveHandles s).Nodup :=
  (show allCursorTypes.Nodup by decide).filterMap
    (fun a a' b hb hb' => h.live_inj a a' b hb hb')

/-- The destructor frees exactly the allocated handles: afterwards the freed
list has no duplicates and contains a handle iff it was ever created; the
invariant still holds on the destroyed state. -/
theorem destroyBackend_spec {s : BackendState} (h : CursorInv s) :
    (destroyBackend s).freed.Nodup
  ∧ (∀ k, k ∈ (destroyBackend s).freed ↔ k < s.nextId)
  ∧ CursorInv (destroyBackend s) := by
  have hnodup : (liveHandles s ++ s.freed).Nodup := by
    refine (liveHandles_nodup h).append h.freed_nodup ?_
    intro k hk1 hk2
    obtain ⟨u, _, hcu⟩ := List.mem_filterMap.mp hk1
    exact h.live_not_freed u k hcu hk2
  have hiff : ∀ k, k ∈ liveHandles s ++ s.freed ↔ k < s.nextId := by
    intro k
    constructor
    · intro hk
      rcases List.mem_append.mp hk with hk | hk
      · obtain ⟨u, _, hcu⟩ := List.mem_filterMap.mp hk
        exact h.live_lt u k hcu
      · exact h.freed_lt k hk
    · intro hk
      rcases h.complete k hk with ⟨u, hu⟩ | hf
      · exact List.mem_append.mpr
          (Or.inl (List.mem_filterMap.mpr ⟨u, mem_allCursorTypes u, hu⟩))
      · exact List.mem_append.mpr (Or.inr hf)
  refine ⟨hnodup, hiff, ?_, ?_, hnodup, ?_, ?_, ?_⟩
  · intro u k hk
    exact Option.noConfusion hk
  · intro u u' k hk
    exact Option.noConfusion hk
  · intro k hk
    exact (hiff k).mp hk
  · intro u k hk
    exact Option.noConfusion hk
  · intro k hk
    exact Or.inr ((hiff k).mpr hk)

/-- `setMouseCursor` on a gui that is not attached: the state is unchanged
(the `TGUI_ASSERT` branch). -/
theorem setMouseCursor_eq_miss (s : BackendState) (g : Nat) (t : CursorType) (ok : Bool)
    (hl : lookupGui s.guis g = none) :
    setMouseCursor s g t ok = s := by
  unfold setMouseCursor
  rw [hl]

/-- `setMouseCursor` on an attached gui, written with the gui data exposed. -/
theorem setMouseCursor_eq_hit (s : BackendState) (g : Nat) (t : CursorType) (ok : Bool)
    (d : GuiData) (hl : lookupGui s.guis g = some d) :
    setMouseCursor s g t ok =
      if d.mouseCursor = t then s
      else if d.window = true then
        updateShownMouseCursor
          { s with guis := updateGui s.guis g (fun e => { e with mouseCursor := t }) } t ok
      else { s with guis := updateGui s.guis g (fun e => { e with mouseCursor := t }) } := by
  unfold setMouseCursor
  rw [hl]

/-- `detatchGui`, written without the intermediate state. -/
theorem detatchGui_eq (s : BackendState) (g : Nat) :
    detatchGui s g =
      if s.destroyOnLastGuiDetatch = true ∧ s.guis.filter (fun p => p.1 != g) = [] then
        destroyBackend { s with guis := s.guis.filter (fun p => p.1 != g) }
      else { s with guis := s.guis.filter (fun p => p.1 != g) } := rfl

/-- Every backend operation preserves the cursor-registry invariant. -/
theorem cursorInv_stepOp (s : BackendState) (op : HostOp) (h : CursorInv s) :
    CursorInv (stepOp s op) := by
  cases op with
  | setStyle t so co sh =>
    show CursorInv (setMouseCursorStyle s t so co sh)
    unfold setMouseCursorStyle
    split
    · split
      · exact cursorInv_updateStyle s t true sh h
      · exact h
    · exact h
  | resetStyle t ok sh =>
    exact cursorInv_updateStyle s t ok sh h
  | showCursor t ok =>
    exact cursorInv_updateShown s t ok h
  | setCursor g t ok =>
    show CursorInv (setMouseCursor s g t ok)
    cases hl : lookupGui s.guis g with
    | none =>
      rw [setMouseCursor_eq_miss s g t ok hl]
      exact h
    | some d =>
      rw [setMouseCursor_eq_hit s g t ok d hl]
      by_cases hd : d.mouseCursor = t
      · rw [if_pos hd]
        exact h
      · rw [if_neg hd]
        by_cases hw : d.window = true
        · rw [if_pos hw]
          exact cursorInv_updateShown _ t ok h
        · rw [if_neg hw]
          exact h
  | attach g =>
    show CursorInv (attachGui s g)
    unfold attachGui
    split
    · exact h
    · exact h
  | setWindow g =>
    exact h
  | detatch g =>
    show CursorInv (detatchGui s g)
    rw [detatchGui_eq]
    by_cases hcond :
        s.destroyOnLastGuiDetatch = true ∧ s.guis.filter (fun p => p.1 != g) = []
    · rw [if_pos hcond]
      exact (destroyBackend_spec h).2.2
    · rw [if_neg hcond]
      exact h

/-- Running any operation sequence preserves the cursor-registry invariant. -/
theorem cursorInv_runOps :
    ∀ (ops : List HostOp) (s : BackendState), CursorInv s → CursorInv (runOps s ops)
  | [], _, h => h
  | op :: rest, s, h => cursorInv_runOps rest (stepOp s op) (cursorInv_stepOp s op h)

/-- The fresh backend satisfies the cursor-registry invariant. -/
theorem cursorInv_initBackend : CursorInv initBackend :=
  ⟨fun _ _ hk => Option.noConfusion hk,
   fun _ _ _ hk _ => Option.noConfusion hk,
   List.nodup_nil,
   fun _ hk => absurd hk (List.not_mem_nil _),
   fun _ _ hk => Option.noConfusion hk,
   fun _ hk => absurd hk (Nat.not_lt_zero _)⟩

/-- Claim C7: the cursor registry never double-frees or leaks a handle:
after any sequence of backend operations the freed list has no duplicates,
each handle is cached for at most one cursor type, and running the
destructor leaves every handle ever created freed exactly once. -/
theorem backendSDL_cursorRegistry_exactlyOnce (ops : List HostOp) :
    (runOps initBackend ops).freed.Nodup
  ∧ (∀ t u k, (runOps initBackend ops).cursors t = some k →
        (runOps initBackend ops).cursors u = some k → t = u)
  ∧ (destroyBackend (runOps initBackend ops)).freed.Nodup
  ∧ (∀ k, k ∈ (destroyBackend (runOps initBackend ops)).freed ↔
        k < (runOps initBackend ops).nextId) := by
  have h := cursorInv_runOps ops initBackend cursorInv_initBackend
  have hd := destroyBackend_spec h
  exact ⟨h.freed_nodup, h.live_inj, hd.1, hd.2.1⟩

/-- Witness for C7 on a concrete operation sequence that creates, replaces
and lazily creates cursors: the freed list stays duplicate-free. -/
theorem backendSDL_cursorRegistry_exactlyOnce_witness :
    (runOps initBackend
      [.resetStyle .arrow true true, .setStyle .arrow true true true,
       .showCursor .text true]).freed.Nodup :=
  (backendSDL_cursorRegistry_exactlyOnce
    [.resetStyle .arrow true true, .setStyle .arrow true true true,
     .showCursor .text true]).1

/-- `setMouseCursor` is the identity when the requested type is already the
gui's stored type. -/
theorem setMouseCursor_noop (s : BackendState) (g : Nat) (t : CursorType) (b : Bool)
    (d : GuiData) (hat : lookupGui s.guis g = some d) (hd : d.mouseCursor = t) :
    setMouseCursor s g t b = s := by
  rw [setMouseCursor_eq_hit s g t b d hat, if_pos hd]

/-- Claim C8: `setMouseCursor` with the gui's current type is a no-op and
calling it twice in a row equals calling it once; with a different type it
stores the new type and, when the gui has a window (and the host cursor for
the type exists or can be created), the shown host cursor is updated to that
type's cached cursor in the same call. -/
theorem backendSDL_setMouseCursor_contract (s : BackendState) (g : Nat)
    (t : CursorType) (ok ok' : Bool) (d : GuiData)
    (hat : lookupGui s.guis g = some d) :
    (d.mouseCursor = t → setMouseCursor s g t ok = s)
  ∧ (setMouseCursor (setMouseCursor s g t ok) g t ok' = setMouseCursor s g t ok)
  ∧ (d.mouseCursor ≠ t →
      lookupGui (setMouseCursor s g t ok).guis g = some { d with mouseCursor := t }
    ∧ (d.window = true → ok = true →
        (setMouseCursor s g t ok).shown = (setMouseCursor s g t ok).cursors t
      ∧ ((setMouseCursor s g t ok).cursors t).isSome = true)) := by
  have hstored : d.mouseCursor ≠ t →
      lookupGui (setMouseCursor s g t ok).guis g = some { d with mouseCursor := t } := by
    intro hd
    rw [setMouseCursor_eq_hit s g t ok d hat, if_neg hd]
    by_cases hw : d.window = true
    · rw [if_pos hw, updateShown_guis]
      show lookupGui (updateGui s.guis g (fun e => { e with mouseCursor := t })) g = _
      rw [lookupGui_updateGui, hat]
      rfl
    · rw [if_neg hw]
      show lookupGui (updateGui s.guis g (fun e => { e with mouseCursor := t })) g = _
      rw [lookupGui_updateGui, hat]
      rfl
  refine ⟨fun hd => setMouseCursor_noop s g t ok d hat hd, ?_, fun hd => ⟨hstored hd, ?_⟩⟩
  · by_cases hd : d.mouseCursor = t
    · rw [setMouseCursor_noop s g t ok d hat hd, setMouseCursor_noop s g t ok' d hat hd]
    · exact setMouseCursor_noop _ g t ok' { d with mouseCursor := t } (hstored hd) rfl
  · intro hw hok
    subst hok
    rw [setMouseCursor_eq_hit s g t true d hat, if_neg ‹d.mouseCursor ≠ t›, if_pos hw]
    cases hc : s.cursors t with
    | some k =>
      rw [updateShown_eq_some
        { s with guis := updateGui s.guis g (fun e => { e with mouseCursor := t }) } t k true hc]
      constructor
      · show some k = s.cursors t
        exact hc.symm
      · show (s.cursors t).isSome = true
        rw [hc]
        rfl
    | none =>
      rw [updateShown_eq_create
        { s with guis := updateGui s.guis g (fun e => { e with mouseCursor := t }) } t hc]
      constructor
      · show some s.nextId = Function.update s.cursors t (some s.nextId) t
        rw [Function.update_same]
      · show (Function.update s.cursors t (some s.nextId) t).isSome = true
        rw [Function.update_same]
        rfl

/-- Witness for C8 on a backend with one attached gui that has a window and
the arrow cursor stored: requesting the text cursor stores it, updates the
shown cursor, and a repeated identical request changes nothing. -/
theorem backendSDL_setMouseCursor_contract_witness :
    (setMouseCursor (setMouseCursor
      { guis := [(5, ⟨true, .arrow⟩)], destroyOnLastGuiDetatch := true, alive := true,
        cursors := fun _ => none, nextId := 0, freed := [], shown := none } 5 .text true)
        5 .text true
      = setMouseCursor
      { guis := [(5, ⟨true, .arrow⟩)], destroyOnLastGuiDetatch := true, alive := true,
        cursors := fun _ => none, nextId := 0, freed := [], shown := none } 5 .text true)
  ∧ (lookupGui (setMouseCursor
      { guis := [(5, ⟨true, .arrow⟩)], destroyOnLastGuiDetatch := true, alive := true,
        cursors := fun _ => none, nextId := 0, freed := [], shown := none } 5 .text true).guis 5
      = some ⟨true, .text⟩)
  ∧ ((setMouseCursor
      { guis := [(5, ⟨true, .arrow⟩)], destroyOnLastGuiDetatch := true, alive := true,
        cursors := fun _ => none, nextId := 0, freed := [], shown := none } 5 .text true).shown
      = (setMouseCursor
      { guis := [(5, ⟨true, .arrow⟩)], destroyOnLastGuiDetatch := true, alive := true,
        cursors := fun _ => none, nextId := 0, freed := [], shown := none } 5 .text true).cursors
        .text) := by
  have h := backendSDL_setMouseCursor_contract
    { guis := [(5, ⟨true, .arrow⟩)], destroyOnLastGuiDetatch := true, alive := true,
      cursors := fun _ => none, nextId := 0, freed := [], shown := none }
    5 .text true true ⟨true, .arrow⟩ rfl
  have h3 := h.2.2 (by decide)
  exact ⟨h.2.1, h3.1, (h3.2 rfl rfl).1⟩

/-- Claim C9: backend resource failures degrade silently: a failed cursor
surface or cursor creation leaves `setMouseCursorStyle` a no-op, clipboard
access without text yields the empty string, and a failed lazy cursor
creation leaves `updateShownMouseCursor` a no-op. -/
theorem backendSDL_failures_silent (s : BackendState) (t : CursorType) (b c : Bool)
    (hmiss : s.cursors t = none) :
    setMouseCursorStyle s t false b c = s
  ∧ setMouseCursorStyle s t true false c = s
  ∧ getClipboard none = ""
  ∧ updateShownMouseCursor s t false = s := by
  refine ⟨rfl, rfl, rfl, ?_⟩
  unfold updateShownMouseCursor
  rw [hmiss]
  rfl

/-- Witness for C9 at the freshly created backend and the arrow cursor. -/
theorem backendSDL_failures_silent_witness :
    setMouseCursorStyle initBackend .arrow false true true = initBackend
  ∧ setMouseCursorStyle initBackend .arrow true false true = initBackend
  ∧ getClipboard none = ""
  ∧ updateShownMouseCursor initBackend .arrow false = initBackend :=
  backendSDL_failures_silent initBackend .arrow true true rfl

/-- Claim C10: `isKeyboardModifierPressed` is total: each of the four
modifier codes tests the corresponding SDL modifier bits, and every other
code returns false. -/
theorem backendSDL_isKeyboardModifierPressed_total :
    (∀ m, isKeyboardModifierPressed m 0 = (m &&& kmodGui != 0))
  ∧ (∀ m, isKeyboardModifierPressed m 1 = (m &&& kmodCtrl != 0))
  ∧ (∀ m, isKeyboardModifierPressed m 2 = (m &&& kmodShift != 0))
  ∧ (∀ m, isKeyboardModifierPressed m 3 = (m &&& kmodAlt != 0))
  ∧ (∀ m k, 4 ≤ k → isKeyboardModifierPressed m k = false) := by
  refine ⟨fun m => rfl, fun m => rfl, fun m => rfl, fun m => rfl, fun m k hk => ?_⟩
  obtain ⟨j, rfl⟩ : ∃ j, k = j + 4 := ⟨k - 4, by omega⟩
  rfl

/-- Witness for C10: code 9 is outside the four modifiers and yields false
even with every modifier bit set. -/
theorem backendSDL_isKeyboardModifierPressed_total_witness :
    isKeyboardModifierPressed 0xFFF 9 = false :=
  backendSDL_isKeyboardModifierPressed_total.2.2.2.2 0xFFF 9 (by decide)

end TguiSpec
